import Mathlib

/-!
Verification of the sightline-security-advisor repository.

This file gives a shallow embedding, in Lean 4, of the pure decision logic of
the repository:

* `src/services/cve_service.py`: the strict evidence-based CVE correlation
  engine `strict_match_cve_to_evidence`, the supplementary filter
  `filter_by_age_and_score`, the vendor detector `detect_vendor`, and the
  version gate at the start of `fetch_cves_for_service`;
* `src/services/banner_utils.py`: `extract_service_info`;
* `src/services/scan_service.py`: the gated CVE enrichment step in
  `perform_network_scan` (modelled at the level of Python keyword-argument
  binding, which is what decides its behaviour);
* `src/services/target_normalizer.py`: `normalize_target` and its helpers.

Python dictionaries read with `.get(key, default)` are modelled as structures
with `Option` fields, read through `Option.getD`.  Python strings are Lean
`String`s; all string constants in the repository are ASCII, so the ASCII
models of `str.lower`, `str.strip` and `str.isdigit` below agree with Python
on every input the theorems touch.
-/

/-- ASCII model of lowercasing one character (`str.lower` in the source; all
relevant text is ASCII). -/
def pyLowerChar (c : Char) : Char :=
  if 'A' ≤ c ∧ c ≤ 'Z' then Char.ofNat (c.toNat + 32) else c

/-- ASCII model of Python `str.lower()`. -/
def pyLower (s : String) : String :=
  String.mk (s.toList.map pyLowerChar)

/-- Model of Python `str.strip()` on a character list: drop leading and
trailing whitespace. -/
def pyStripL (l : List Char) : List Char :=
  ((l.dropWhile Char.isWhitespace).reverse.dropWhile Char.isWhitespace).reverse

/-- Model of Python `str.strip()`. -/
def pyStrip (s : String) : String :=
  String.mk (pyStripL s.toList)

/-- Model of the Python substring test `pat in s`. -/
def strContains (s pat : String) : Bool :=
  s.toList.tails.any (fun t => pat.toList.isPrefixOf t)

/-- Split a character list at every occurrence of one separator character,
as Python `str.split(sep)` for a one-character separator. -/
def splitOnChar (sep : Char) : List Char → List (List Char)
  | [] => [[]]
  | c :: rest =>
    if c = sep then [] :: splitOnChar sep rest
    else
      match splitOnChar sep rest with
      | [] => [[c]]
      | h :: t => (c :: h) :: t

/-- Decimal digit test, as Python `str.isdigit` restricted to ASCII. -/
def isAsciiDigit (c : Char) : Bool := '0' ≤ c ∧ c ≤ '9'

/-- Value of one decimal digit. -/
def digitVal (c : Char) : Nat := c.toNat - 48

/-- Numeric value of a digit list (most significant first). -/
def natOfDigitsL (l : List Char) : Nat :=
  l.foldl (fun acc c => acc * 10 + digitVal c) 0

/-- Python `s.isdigit()`: nonempty and all digits. -/
def pyIsDigitL (l : List Char) : Bool :=
  !l.isEmpty && l.all isAsciiDigit

/-- Word character of the `re` module's `\w`, restricted to ASCII (all
candidate text the theorems touch is ASCII). -/
def isWordChar (c : Char) : Bool := c.isAlphanum || c = '_'

/-! ## Data model

`CVECandidate`, `ServiceObservation` and `Evidence` of the spec's §3, as the
Python dicts the source passes around.  Optional dictionary keys are `Option`
fields; the source reads every one of them with `.get(key, default)`. -/

/-- One normalized vulnerability record, as built by `fetch_cves_for_service`
(`src/services/cve_service.py`, lines 458-464).  `title` and `description`
are read with `cve.get(..., "")`, `cvss` with `cve.get("cvss")`. -/
structure CVE where
  id : String
  title : Option String := none
  description : Option String := none
  cvss : Option ℚ := none
deriving DecidableEq, Repr

/-- The `service_info` dict documented in `strict_match_cve_to_evidence`'s
docstring and built by `extract_service_info` in
`src/services/banner_utils.py`. -/
structure ServiceInfo where
  service_name : Option String := none
  banner : Option String := none
  version : Option String := none
  product : Option String := none
  fingerprint_confidence : Option Int := none
deriving DecidableEq, Repr

/-- The `evidence` dict assembled by `extract_http_evidence`,
`extract_upnp_evidence` and `collect_http_evidence` in
`src/services/banner_utils.py`.  Every field is optional: the collectors only
insert keys they found. -/
structure Evidence where
  server_header : Option String := none
  x_powered_by : Option String := none
  html_title : Option String := none
  body_tokens : Option (List String) := none
  reachable_paths : Option (List String) := none
  upnp_model : Option String := none
  upnp_manufacturer : Option String := none
  upnp_description : Option String := none
deriving DecidableEq, Repr

/-! ## The strict evidence-based matcher

`strict_match_cve_to_evidence` of `src/services/cve_service.py`, lines
216-356. -/

/-- `title_desc`: the candidate's title and description joined by one space
and lowercased (`cve_service.py` line 242). -/
def cveText (cve : CVE) : String :=
  pyLower ((cve.title.getD "") ++ " " ++ (cve.description.getD ""))

/-- Character class of the path-extraction pattern `(/[\w\-\./]+)` at
`cve_service.py` line 249. -/
def isPathTokenChar (c : Char) : Bool :=
  isWordChar c || c = '-' || c = '.' || c = '/'

/-- Fueled scanner equivalent to `re.findall(r"(/[\w\-\./]+)", s)`: each
match is a `/` followed by a maximal nonempty run of path characters, scanning
left to right without overlap.  The fuel only bounds the recursion; it is
always sufficient at `findPaths`'s call. -/
def findPathsLoop : Nat → List Char → List (List Char)
  | 0, _ => []
  | _ + 1, [] => []
  | fuel + 1, c :: rest =>
    if c = '/' then
      match rest with
      | [] => []
      | r :: _ =>
        if isPathTokenChar r then
          (c :: rest.takeWhile isPathTokenChar) ::
            findPathsLoop fuel (rest.dropWhile isPathTokenChar)
        else findPathsLoop fuel rest
    else findPathsLoop fuel rest

/-- `endpoint_paths` of `cve_service.py` line 249. -/
def findPaths (s : String) : List String :=
  (findPathsLoop (s.toList.length + 1) s.toList).map String.mk

/-- Rule 1, CVE endpoint matching (`cve_service.py` lines 248-256): some
extracted path of length strictly between 1 and 80 that contains `/` is an
element of the (nonempty) `reachable_paths` evidence. -/
def endpointRule (cve : CVE) (evidence : Evidence) : Bool :=
  (findPaths (cveText cve)).any (fun path =>
    decide (1 < path.length) && decide (path.length < 80) &&
      path.toList.contains '/' &&
      (let reachable := evidence.reachable_paths.getD []
       !reachable.isEmpty && reachable.contains path))

/-- The fixed router-vendor alias table of `cve_service.py` lines 259-268,
in its source order (the first vendor with an alias in the candidate text is
selected). -/
def router_vendors : List (String × List String) :=
  [("tenda", ["tenda", "ac18", "ac15"]),
   ("fritz", ["fritz", "avm", "fritz!box"]),
   ("tp-link", ["tp-link", "tplink"]),
   ("d-link", ["d-link", "dlink"]),
   ("netgear", ["netgear"]),
   ("asus", ["asus router"]),
   ("cisco", ["cisco"]),
   ("zyxel", ["zyxel"])]

/-- Rule 2's evidence checks (`cve_service.py` lines 280-308), in source
order: banner, server header, HTML title, body tokens (list membership),
UPnP model, UPnP manufacturer. -/
def vendorEvidence (vendor_keywords : List String) (service_info : ServiceInfo)
    (evidence : Evidence) : Bool :=
  vendor_keywords.any (fun kw => strContains (pyLower (service_info.banner.getD "")) kw) ||
  vendor_keywords.any (fun kw => strContains (pyLower (evidence.server_header.getD "")) kw) ||
  vendor_keywords.any (fun kw => strContains (pyLower (evidence.html_title.getD "")) kw) ||
  vendor_keywords.any (fun kw => (evidence.body_tokens.getD []).contains kw) ||
  vendor_keywords.any (fun kw => strContains (pyLower (evidence.upnp_model.getD "")) kw) ||
  vendor_keywords.any (fun kw => strContains (pyLower (evidence.upnp_manufacturer.getD "")) kw)

/-- `('.' digits+)*` of the version pattern, parsed greedily; returns the
digit groups and the unconsumed remainder. -/
def dotGroupsLoop : Nat → List Char → List (List Char) × List Char
  | 0, l => ([], l)
  | fuel + 1, l =>
    match l with
    | '.' :: rest =>
      let ds := rest.takeWhile isAsciiDigit
      if ds.isEmpty then ([], l)
      else
        let (gs, r) := dotGroupsLoop fuel (rest.dropWhile isAsciiDigit)
        (ds :: gs, r)
    | _ => ([], l)

/-- Join digit groups with dots, the text of a matched version token. -/
def joinDotted (first : List Char) (groups : List (List Char)) : List Char :=
  first ++ (groups.map (fun g => '.' :: g)).flatten

/-- Fueled scanner equivalent to
`re.findall(r"\b(\d+\.\d+(?:\.\d+)*)\b", s)` (`cve_service.py` line 315).
`prevW` records whether the previous character is a word character (so `\b`
holds exactly when it is not); when the greedy match is followed by a word
character the engine backtracks by one `.digits` group, exactly as `re`
does. -/
def findVersionsLoop : Nat → Bool → List Char → List (List Char)
  | 0, _, _ => []
  | fuel + 1, prevW, l =>
    match l with
    | [] => []
    | c :: rest =>
      if isAsciiDigit c && !prevW then
        let d1 := c :: rest.takeWhile isAsciiDigit
        let r1 := rest.dropWhile isAsciiDigit
        let gr := dotGroupsLoop r1.length r1
        match gr.1 with
        | [] => findVersionsLoop fuel true rest
        | g :: gs =>
          if h : gr.2 = [] then
            joinDotted d1 (g :: gs) :: findVersionsLoop fuel true gr.2
          else
            if isWordChar (gr.2.head h) then
              match (g :: gs).reverse with
              | [] => findVersionsLoop fuel true rest
              | glast :: grevInit =>
                if grevInit.isEmpty then
                  findVersionsLoop fuel true rest
                else
                  joinDotted d1 grevInit.reverse ::
                    findVersionsLoop fuel true ('.' :: glast ++ gr.2)
            else
              joinDotted d1 (g :: gs) :: findVersionsLoop fuel true gr.2
      else
        findVersionsLoop fuel (isWordChar c) rest

/-- `cve_versions` of `cve_service.py` line 315. -/
def findVersions (s : String) : List String :=
  (findVersionsLoop (s.toList.length + 1) false s.toList).map String.mk

/-- The fixed common-product list of `cve_service.py` lines 323-324. -/
def common_products : List String :=
  ["apache", "nginx", "openssh", "bind", "postfix", "mysql", "postgresql",
   "miniupnpd", "libupnp", "samba", "vsftpd"]

/-- `strict_match_cve_to_evidence` (`src/services/cve_service.py`, lines
216-356): returns `true` only when there is direct evidence linking the CVE
to the scanned service.  Rules in source order: (1) endpoint matching,
(2) vendor-specific CVE gate, (3) version-literal matching, (4) known-product
matching, (5) high-confidence generic match, (6) default reject. -/
def strict_match_cve_to_evidence (cve : CVE) (service_info : ServiceInfo)
    (evidence : Evidence) : Bool :=
  let title_desc := cveText cve
  let svc := pyLower (service_info.service_name.getD "")
  let version := pyLower (service_info.version.getD "")
  let product := pyLower (service_info.product.getD "")
  let banner := pyLower (service_info.banner.getD "")
  if endpointRule cve evidence then true
  else
    match router_vendors.find? (fun vk => vk.2.any (fun kw => strContains title_desc kw)) with
    | some (_, vendor_keywords) => vendorEvidence vendor_keywords service_info evidence
    | none =>
      let cve_versions := findVersions title_desc
      if !cve_versions.isEmpty && !(version = "") &&
          cve_versions.any (fun cv => strContains version cv) then true
      else
        match common_products.find? (fun prod => strContains title_desc prod) with
        | some cve_product =>
          strContains banner cve_product || strContains product cve_product ||
            strContains (pyLower (evidence.server_header.getD "")) cve_product
        | none =>
          let fingerprint_conf := service_info.fingerprint_confidence.getD 0
          decide (80 ≤ fingerprint_conf) && strContains title_desc svc

/-! ## Supplementary age/score filter

`filter_by_age_and_score` of `src/services/cve_service.py`, lines 187-214. -/

/-- First match of `re.search(r"CVE-(\d{4})-", cve_id)` as a year, `0` when
there is none (`cve_service.py` lines 196-197). -/
def cveYearScan : List Char → Nat
  | [] => 0
  | c :: rest =>
    match c :: rest with
    | 'C' :: 'V' :: 'E' :: '-' :: d1 :: d2 :: d3 :: d4 :: '-' :: _ =>
      if isAsciiDigit d1 && isAsciiDigit d2 && isAsciiDigit d3 && isAsciiDigit d4 then
        natOfDigitsL [d1, d2, d3, d4]
      else cveYearScan rest
    | _ => cveYearScan rest

/-- Year extracted from a CVE id. -/
def cve_year (cve_id : String) : Nat := cveYearScan cve_id.toList

/-- `cve.get("cvss") or 0` (`cve_service.py` line 199): a missing or zero
score becomes `0`.  CVSS scores have one decimal digit, so `ℚ` models the
source's float comparisons exactly. -/
def cvssOrZero (cve : CVE) : ℚ := cve.cvss.getD 0

/-- The keep condition of `filter_by_age_and_score` (`cve_service.py` lines
203-208): kept when year ≥ 2020 and CVSS ≥ 6.0, or when year ≥ 2024 with no
score; every other candidate is dropped. -/
def keepAgeScore (cve : CVE) : Bool :=
  let year := cve_year cve.id
  let cvss_score := cvssOrZero cve
  (decide (2020 ≤ year) && decide ((6 : ℚ) ≤ cvss_score)) ||
    (decide (2024 ≤ year) && decide (cvss_score = 0))

/-- `filter_by_age_and_score` (`cve_service.py` lines 187-214). -/
def filter_by_age_and_score (cve_results : List CVE) : List CVE :=
  cve_results.filter keepAgeScore

/-! ## Vendor detection and the fetch gate

`detect_vendor` and the start of `fetch_cves_for_service`
(`src/services/cve_service.py`, lines 37-74 and 384-400). -/

/-- `SERVICE_VENDOR_MAP` (`cve_service.py` lines 37-44). -/
def SERVICE_VENDOR_MAP : List (String × String) :=
  [("FRITZ!Box http config", "AVM FRITZ!Box"),
   ("FRITZ!OS", "AVM FRITZ!Box"),
   ("Tenda http config", "Tenda"),
   ("TP-Link router http", "TP-Link"),
   ("D-Link router admin", "D-Link"),
   ("Netgear genie", "Netgear")]

/-- `detect_vendor` (`cve_service.py` lines 46-74). -/
def detect_vendor (service_name version : String) : String :=
  let combined := pyLower (service_name ++ " " ++ version)
  match SERVICE_VENDOR_MAP.lookup service_name with
  | some v => v
  | none =>
    if strContains combined "fritz" || strContains combined "avm" then "AVM FRITZ!Box"
    else if strContains combined "tenda" then "Tenda"
    else if strContains combined "tp-link" then "TP-Link"
    else if strContains combined "d-link" then "D-Link"
    else if strContains combined "netgear" then "Netgear"
    else if strContains combined "asus" && strContains combined "router" then "ASUS"
    else if strContains combined "cisco" then "Cisco"
    else if strContains combined "zyxel" then "Zyxel"
    else "Generic"

/-- `generic_services` (`cve_service.py` line 392). -/
def generic_services : List String :=
  ["upnp", "http-alt", "http-proxy", "https-alt", "ppp", "cslistener", "unknown"]

/-- The pure prefix of `fetch_cves_for_service` (`cve_service.py` lines
384-400) up to the first external query: `some []` when the function returns
an empty list immediately (both branches of the skip test at lines 393-400
return `[]`), `none` when it goes on to build a search query and issue the
NVD request.  The condition `not version or version == "unknown" or
version == ""` of line 393 is kept literally. -/
def fetch_cves_early_return (service_name version : String) : Option (List CVE) :=
  let product := detect_vendor service_name version
  if product = "Generic" && (version = "" || version = "unknown" || version = "") then
    if generic_services.contains (pyLower service_name) || pyLower service_name = "unknown" then
      some []
    else
      some []
  else none

/-! ## `extract_service_info`

`src/services/banner_utils.py`, lines 135-151. -/

/-- One scanner (nmap) service record, the dict `extract_service_info` reads
with `.get`.  python-nmap reports `conf` on a 0-10 scale; the source converts
it with `int(...)`, modelled as the numeric value. -/
structure NmapService where
  name : Option String := none
  product : Option String := none
  version : Option String := none
  extrainfo : Option String := none
  conf : Option Int := none
deriving DecidableEq, Repr

/-- `extract_service_info` (`banner_utils.py` lines 135-151): the banner is
the product and extrainfo joined by a space and stripped;
`fingerprint_confidence` is `int(nmap_service.get("conf", 0))`. -/
def extract_service_info (nmap_service : NmapService) : ServiceInfo :=
  { service_name := some (nmap_service.name.getD "unknown")
    banner := some (pyStrip ((nmap_service.product.getD "") ++ " " ++ (nmap_service.extrainfo.getD "")))
    version := some (nmap_service.version.getD "")
    product := some (nmap_service.product.getD "")
    fingerprint_confidence := some (nmap_service.conf.getD 0) }

/-! ## The orchestrator's gated CVE enrichment

`perform_network_scan` of `src/services/scan_service.py`, lines 322-379.
The decisive fact is at the Python call-binding level: line 332 calls
`fetch_cves_for_service(search_service_name, search_version,
require_version=True)`, but `fetch_cves_for_service`
(`src/services/cve_service.py` line 378) accepts only the keyword parameters
`service_name`, `version`, `os_name`, `service_info` and `evidence`.  A call
with a keyword argument outside the callee's parameters raises `TypeError`
at the call itself; the surrounding `try` block's `except Exception` handler
(lines 358-366) then sets the entry's `cves` field to the error placeholder
`[{"error": f"Could not fetch CVEs: {e}"}]`. -/

/-- What the assembled report entry carries in its `cves` field. -/
inductive CvesFieldValue where
  | cveList (cves : List CVE)
  | errorEntry (msg : String)
deriving DecidableEq, Repr

/-- The keyword parameters of `fetch_cves_for_service`
(`cve_service.py` lines 378-379). -/
def fetch_cves_for_service_params : List String :=
  ["service_name", "version", "os_name", "service_info", "evidence"]

/-- The keyword arguments `perform_network_scan` passes at
`scan_service.py` line 332. -/
def perform_network_scan_cve_kwargs : List String :=
  ["require_version"]

/-- A Python call binds without `TypeError` only when every keyword argument
names a parameter of the callee. -/
def python_call_binds (params kwargs : List String) : Bool :=
  kwargs.all (fun k => params.contains k)

/-- The gated CVE enrichment of `perform_network_scan` (`scan_service.py`
lines 322-379), restricted to what it stores in `service_data["cves"]`:
for an open port whose search service name is not "unknown" and whose
version passes the gate (line 326), the `try` block calls
`fetch_cves_for_service` with the `require_version` keyword; if the call
bound, the fetched candidates would be stored, but when it raises the
`except` branch stores the error placeholder.  Otherwise `cves` keeps the
empty list it was initialised with (line 311, line 370). -/
def gated_cve_enrichment (port_state search_service_name : String)
    (search_version : Option String) (fetched : List CVE) : CvesFieldValue :=
  if port_state = "open" && !(pyLower search_service_name = "unknown") then
    let has_version :=
      match search_version with
      | none => false
      | some v => !(v = "") && !(pyLower v = "unknown")
    if has_version then
      if python_call_binds fetch_cves_for_service_params perform_network_scan_cve_kwargs then
        CvesFieldValue.cveList fetched
      else
        CvesFieldValue.errorEntry "Could not fetch CVEs: fetch_cves_for_service got an unexpected keyword argument require_version"
    else CvesFieldValue.cveList []
  else CvesFieldValue.cveList []

/-! ## Target normalization

`src/services/target_normalizer.py`.  `normalize_target` returns the result
dict or raises `ValueError`; this is modelled as `Except String TargetInfo`,
with the message text of each `raise` carried in the `error` value. -/

/-- The dict `normalize_target` returns (`target_normalizer.py` lines
18-24): `hosts_count` is `None` for hostnames. -/
structure TargetInfo where
  original : String
  normalized : String
  hosts_count : Option Nat
  target_type : String
  warnings : List String
deriving DecidableEq, Repr

/-- Hexadecimal digit test. -/
def isHexDigitChar (c : Char) : Bool :=
  isAsciiDigit c || ('a' ≤ c ∧ c ≤ 'f') || ('A' ≤ c ∧ c ≤ 'F')

/-- Value of one hexadecimal digit. -/
def hexVal (c : Char) : Nat :=
  if isAsciiDigit c then digitVal c
  else if 'a' ≤ c ∧ c ≤ 'f' then c.toNat - 87
  else c.toNat - 55

/-- Numeric value of a hexadecimal digit list (most significant first). -/
def natOfHexL (l : List Char) : Nat :=
  l.foldl (fun acc c => acc * 16 + hexVal c) 0

/-- One dotted-decimal IPv4 octet as `ipaddress` parses it: 1-3 decimal
digits, value at most 255, no leading zero. -/
def validOctet : List Char → Option Nat
  | [] => none
  | c :: rest =>
    if (c :: rest).all isAsciiDigit && decide ((c :: rest).length ≤ 3) &&
        (rest.isEmpty || decide (c ≠ '0')) then
      let v := natOfDigitsL (c :: rest)
      if v ≤ 255 then some v else none
    else none

/-- `ipaddress.IPv4Address` textual parsing: exactly four valid octets. -/
def parse_ipv4 (s : String) : Option Nat :=
  match splitOnChar '.' s.toList with
  | [a, b, c, d] => do
    let va ← validOctet a
    let vb ← validOctet b
    let vc ← validOctet c
    let vd ← validOctet d
    pure (va * 16777216 + vb * 65536 + vc * 256 + vd)
  | _ => none

/-- Split at every occurrence of the two-character separator `::`, left to
right without overlap, as Python `str.split("::")`. -/
def splitOnColonColon : List Char → List (List Char)
  | [] => [[]]
  | ':' :: ':' :: rest => [] :: splitOnColonColon rest
  | c :: rest =>
    match splitOnColonColon rest with
    | [] => [[c]]
    | h :: t => (c :: h) :: t

/-- One IPv6 group: 1-4 hexadecimal digits. -/
def validIPv6Group (l : List Char) : Bool :=
  !l.isEmpty && decide (l.length ≤ 4) && l.all isHexDigitChar

/-- 128-bit value of eight IPv6 groups. -/
def ipv6Value (groups : List Nat) : Nat :=
  groups.foldl (fun acc g => acc * 65536 + g) 0

/-- `ipaddress.IPv6Address` textual parsing for the plain colon-separated
forms: eight groups, or fewer with one `::` standing for at least one zero
group.  The embedded-IPv4 (`::ffff:1.2.3.4`) and zone-id forms are not used
anywhere in the repository or its tests and are modelled as parse failures. -/
def parse_ipv6 (s : String) : Option Nat :=
  match splitOnColonColon s.toList with
  | [whole] =>
    let gs := splitOnChar ':' whole
    if gs.length = 8 && gs.all validIPv6Group then
      some (ipv6Value (gs.map natOfHexL))
    else none
  | [left, right] =>
    let gl := if left.isEmpty then [] else splitOnChar ':' left
    let gr := if right.isEmpty then [] else splitOnChar ':' right
    if gl.length + gr.length ≤ 7 && gl.all validIPv6Group && gr.all validIPv6Group then
      some (ipv6Value (gl.map natOfHexL ++
        List.replicate (8 - gl.length - gr.length) 0 ++ gr.map natOfHexL))
    else none
  | _ => none

/-- An address parsed by `ipaddress.ip_address`, with its numeric value. -/
inductive IPAddr where
  | v4 (val : Nat)
  | v6 (val : Nat)
deriving DecidableEq, Repr

/-- `ipaddress.ip_address`: IPv4 first, then IPv6 (the grammars are
disjoint, so the order is immaterial). -/
def parse_ip (s : String) : Option IPAddr :=
  match parse_ipv4 s with
  | some v => some (IPAddr.v4 v)
  | none =>
    match parse_ipv6 s with
    | some v => some (IPAddr.v6 v)
    | none => none

/-- Address-family tag, `type(ip)` in the source's comparison. -/
def ipVersionTag : IPAddr → Nat
  | IPAddr.v4 _ => 4
  | IPAddr.v6 _ => 6

/-- `int(ip)`. -/
def ipValue : IPAddr → Nat
  | IPAddr.v4 v => v
  | IPAddr.v6 v => v

/-- Dotted-decimal rendering of an IPv4 value. -/
def renderIPv4 (v : Nat) : String :=
  toString (v / 16777216 % 256) ++ "." ++ toString (v / 65536 % 256) ++ "." ++
    toString (v / 256 % 256) ++ "." ++ toString (v % 256)

/-- The host-count warnings shared by `_normalize_cidr` and
`_normalize_range` (`target_normalizer.py` lines 78-81 and 134-137). -/
def hostCountWarnings (hosts : Nat) : List String :=
  if 1024 < hosts then
    ["Large scan: " ++ toString hosts ++ " hosts. This may take a long time."]
  else if 256 < hosts then
    ["Medium scan: " ++ toString hosts ++ " hosts."]
  else []

/-- `_normalize_cidr` (`target_normalizer.py` lines 72-92), modelled for the
IPv4 address/decimal-prefix form, the only `ip_network` spelling the
repository's callers and tests use; the netmask and IPv6 spellings are
modelled as validation errors.  `strict=False` masks the host bits, and
`num_addresses` is `2 ^ (32 - prefix)`. -/
def _normalize_cidr (cidr_input : String) : Except String TargetInfo :=
  match splitOnChar '/' cidr_input.toList with
  | [addr, pfx] =>
    match parse_ipv4 (String.mk addr),
        (if pyIsDigitL pfx then some (natOfDigitsL pfx) else none) with
    | some v, some p =>
      if p ≤ 32 then
        let hosts := 2 ^ (32 - p)
        let netVal := v / 2 ^ (32 - p) * 2 ^ (32 - p)
        Except.ok { original := cidr_input,
                    normalized := renderIPv4 netVal ++ "/" ++ toString p,
                    hosts_count := some hosts, target_type := "cidr",
                    warnings := hostCountWarnings hosts }
      else Except.error ("Invalid CIDR notation " ++ cidr_input)
    | _, _ => Except.error ("Invalid CIDR notation " ++ cidr_input)
  | _ => Except.error ("Invalid CIDR notation " ++ cidr_input)

/-- `_normalize_range` (`target_normalizer.py` lines 95-152).  Every
`ValueError` raised inside the `try` block is re-raised wrapped in the
"Invalid IP range" message; the parts-count check sits outside it. -/
def _normalize_range (range_input : String) : Except String TargetInfo :=
  match splitOnChar '-' range_input.toList with
  | [p0, p1] =>
    let start_str := String.mk (pyStripL p0)
    let end_str0 := pyStripL p1
    match parse_ip start_str with
    | none => Except.error ("Invalid IP range " ++ range_input)
    | some start_ip =>
      let endStrRes : Except String (List Char) :=
        if pyIsDigitL end_str0 && !end_str0.contains '.' then
          match start_ip with
          | IPAddr.v4 _ =>
            let start_octets := splitOnChar '.' start_str.toList
            Except.ok ((start_octets.take 3).foldr (fun o acc => o ++ '.' :: acc) end_str0)
          | IPAddr.v6 _ => Except.error "Short range only supported for IPv4"
        else Except.ok end_str0
      match endStrRes with
      | Except.error e => Except.error ("Invalid IP range " ++ range_input ++ ": " ++ e)
      | Except.ok end_chars =>
        match parse_ip (String.mk end_chars) with
        | none => Except.error ("Invalid IP range " ++ range_input)
        | some end_ip =>
          if ipVersionTag start_ip ≠ ipVersionTag end_ip then
            Except.error ("Invalid IP range " ++ range_input ++
              ": Start and end IPs must be same version")
          else if ipValue end_ip ≤ ipValue start_ip then
            Except.error ("Invalid IP range " ++ range_input ++
              ": Start IP must be less than end IP")
          else
            let hosts := ipValue end_ip - ipValue start_ip + 1
            Except.ok { original := range_input, normalized := range_input,
                        hosts_count := some hosts, target_type := "range",
                        warnings := hostCountWarnings hosts }
  | _ => Except.error ("Invalid range format " ++ range_input)

/-- One label of the hostname pattern
`[a-zA-Z0-9]([a-zA-Z0-9\-]{0,61}[a-zA-Z0-9])?` (`target_normalizer.py`
line 161): 1-63 characters, first and last alphanumeric, hyphens allowed in
between. -/
def validHostLabel (l : List Char) : Bool :=
  match l with
  | [] => false
  | c :: _ =>
    c.isAlphanum && decide (l.length ≤ 63) &&
      (match l.getLast? with
       | some d => d.isAlphanum
       | none => false) &&
      l.all (fun ch => ch.isAlphanum || ch = '-')

/-- `_normalize_hostname` (`target_normalizer.py` lines 155-175): the
anchored label grammar first, the 253-character bound second. -/
def _normalize_hostname (hostname : String) : Except String TargetInfo :=
  if (splitOnChar '.' hostname.toList).all validHostLabel then
    if 253 < hostname.length then
      Except.error ("Hostname too long (max 253 characters): " ++ hostname)
    else
      Except.ok { original := hostname, normalized := hostname,
                  hosts_count := none, target_type := "hostname", warnings := [] }
  else Except.error ("Invalid hostname format " ++ hostname)

/-- Python `s.endswith(".0")`. -/
def endsWithDotZero (s : String) : Bool :=
  match s.toList.reverse with
  | '0' :: '.' :: _ => true
  | _ => false

/-- The single-host result (`target_normalizer.py` lines 60-66). -/
def singleIpInfo (ui : String) : TargetInfo :=
  { original := ui, normalized := ui, hosts_count := some 1,
    target_type := "single_ip", warnings := [] }

/-- `normalize_target` (`target_normalizer.py` lines 11-69): strip, reject
empty, `/` means CIDR, `-` means range, then a bare IP (IPv4 literals ending
in `.0` become a `/24` CIDR with a warning), else hostname validation. -/
def normalize_target (user_input : String) : Except String TargetInfo :=
  let ui := pyStrip user_input
  if ui.toList.isEmpty then Except.error "Target cannot be empty"
  else if ui.toList.contains '/' then _normalize_cidr ui
  else if ui.toList.contains '-' then _normalize_range ui
  else
    match parse_ip ui with
    | some (IPAddr.v4 _) =>
      if endsWithDotZero ui then
        let octets := splitOnChar '.' ui.toList
        if octets.length = 4 ∧ octets.getD 3 [] = ['0'] then
          Except.ok { original := ui, normalized := ui ++ "/24",
                      hosts_count := some 256, target_type := "cidr",
                      warnings := ["Converted " ++ ui ++ " to " ++ ui ++ "/24 (256 hosts)"] }
        else Except.ok (singleIpInfo ui)
      else Except.ok (singleIpInfo ui)
    | some (IPAddr.v6 _) => Except.ok (singleIpInfo ui)
    | none => _normalize_hostname ui

/-! ## Helper lemmas -/

lemma contains_iff_mem {α : Type} [BEq α] [LawfulBEq α] {l : List α} {a : α} :
    l.contains a = true ↔ a ∈ l :=
  List.elem_iff

lemma mem_dropWhile_of_mem {p : Char → Bool} {c : Char} :
    ∀ {l : List Char}, c ∈ l → p c = false → c ∈ l.dropWhile p := by
  intro l h hc
  induction l with
  | nil => cases h
  | cons a t ih =>
    rw [List.dropWhile_cons]
    split
    · next ha =>
      rcases List.mem_cons.mp h with rfl | ht
      · rw [hc] at ha; cases ha
      · exact ih ht
    · exact h

lemma mem_pyStripL {c : Char} {l : List Char} (hc : c.isWhitespace = false)
    (h : c ∈ l) : c ∈ pyStripL l := by
  unfold pyStripL
  rw [List.mem_reverse]
  refine mem_dropWhile_of_mem ?_ hc
  rw [List.mem_reverse]
  exact mem_dropWhile_of_mem h hc

lemma mem_of_mem_pyStripL {c : Char} {l : List Char} (h : c ∈ pyStripL l) : c ∈ l := by
  unfold pyStripL at h
  rw [List.mem_reverse] at h
  have h1 := List.Sublist.mem h (List.dropWhile_sublist _)
  rw [List.mem_reverse] at h1
  exact List.Sublist.mem h1 (List.dropWhile_sublist _)

lemma toList_pyStrip (s : String) : (pyStrip s).toList = pyStripL s.toList := rfl

/-- Every token `findPathsLoop` emits starts with `/` and has at least one
further character. -/
lemma findPathsLoop_shape :
    ∀ (fuel : Nat) (l p : List Char), p ∈ findPathsLoop fuel l → ∃ r t, p = '/' :: r :: t := by
  intro fuel
  induction fuel with
  | zero => intro l p h; cases h
  | succ n ih =>
    intro l p h
    match l with
    | [] => cases h
    | c :: rest =>
      by_cases hc : c = '/'
      · subst hc
        match rest with
        | [] => simp [findPathsLoop] at h
        | r :: rs =>
          by_cases hr : isPathTokenChar r = true
          · simp only [findPathsLoop, if_true, hr] at h
            rcases List.mem_cons.mp h with rfl | hmem
            · rw [List.takeWhile_cons, hr]
              exact ⟨r, _, rfl⟩
            · exact ih _ _ hmem
          · simp only [findPathsLoop, if_true, hr, Bool.false_eq_true, if_false] at h
            exact ih _ _ h
      · simp only [findPathsLoop, if_neg hc] at h
        exact ih _ _ h

lemma findPaths_shape {s p : String} (h : p ∈ findPaths s) :
    2 ≤ p.length ∧ p.toList.contains '/' = true := by
  unfold findPaths at h
  rcases List.mem_map.mp h with ⟨lc, hlc, rfl⟩
  obtain ⟨r, t, rfl⟩ := findPathsLoop_shape _ _ _ hlc
  refine ⟨by simp [String.length], ?_⟩
  exact contains_iff_mem.mpr (List.mem_cons_self _ _)

/-- Rule 1 fires as soon as some extracted path shorter than 80 characters
is among the reachable paths. -/
lemma endpointRule_true {cve : CVE} {ev : Evidence} {p : String}
    (hp : p ∈ findPaths (cveText cve)) (hlen : p.length < 80)
    (hmem : p ∈ ev.reachable_paths.getD []) : endpointRule cve ev = true := by
  obtain ⟨h2, hsl⟩ := findPaths_shape hp
  unfold endpointRule
  rw [List.any_eq_true]
  refine ⟨p, hp, ?_⟩
  simp only [Bool.and_eq_true, decide_eq_true_eq, Bool.not_eq_true']
  exact ⟨⟨⟨by omega, hlen⟩, hsl⟩,
    List.isEmpty_eq_false.mpr (List.ne_nil_of_mem hmem), contains_iff_mem.mpr hmem⟩

/-- Rule 1 cannot fire when no extracted path shorter than 80 characters is
among the reachable paths. -/
lemma endpointRule_false {cve : CVE} {ev : Evidence}
    (h : ∀ p ∈ findPaths (cveText cve), p.length < 80 → p ∉ ev.reachable_paths.getD []) :
    endpointRule cve ev = false := by
  unfold endpointRule
  rw [List.any_eq_false]
  intro p hp hc
  simp only [Bool.and_eq_true, decide_eq_true_eq] at hc
  obtain ⟨⟨⟨_, hlt⟩, _⟩, _, hcont⟩ := hc
  exact h p hp hlt (contains_iff_mem.mp hcont)

/-! ## C9 -/

/-- C9: `strict_match_cve_to_evidence` is a total boolean function of its
three inputs: for every candidate, service observation and evidence record
— including evidence records in which any or all of the optional fields
`server_header`, `html_title`, `body_tokens`, `reachable_paths`,
`upnp_model`, `upnp_manufacturer` are absent (`none`) — it evaluates to
`true` or to `false`.  In the embedding every dictionary access is the
source's `.get(key, default)`, so an absent field never aborts evaluation,
it only weakens matching. -/
theorem C9_total_boolean (cve : CVE) (service_info : ServiceInfo) (evidence : Evidence) :
    strict_match_cve_to_evidence cve service_info evidence = true ∨
      strict_match_cve_to_evidence cve service_info evidence = false := by
  cases h : strict_match_cve_to_evidence cve service_info evidence
  · exact Or.inr rfl
  · exact Or.inl rfl

/-! ## C2 -/

/-- C2 as frozen is false on the code: the candidate's raw title contains the
path string `/goform/SetUpnpCfg`, that exact string is an element of
`evidence.reachable_paths`, and yet `match()` returns `false` — the source
lowercases the candidate text before extracting paths (line 242) and then
compares the lowercased path against the unmodified `reachable_paths`
entries, so the mixed-case reachable path never matches; the candidate then
falls into the vendor rule with no vendor evidence. -/
theorem C2_counterexample :
    strContains ("Tenda /goform/SetUpnpCfg" ++ " " ++ "") "/goform/SetUpnpCfg" = true ∧
    "/goform/SetUpnpCfg" ∈ ["/goform/SetUpnpCfg"] ∧
    strict_match_cve_to_evidence
      { id := "CVE-2025-11327", title := some "Tenda /goform/SetUpnpCfg", description := some "" }
      { }
      { reachable_paths := some ["/goform/SetUpnpCfg"] } = false := by
  refine ⟨by decide, by decide, by decide⟩

/-- C2 amended: for every candidate and evidence such that some path
extracted from the candidate's lowercased title+description by the source's
pattern (`findPaths`), of length less than 80, is an element of
`evidence.reachable_paths`, `match()` returns `true` regardless of vendor or
version signals — the endpoint rule is evaluated first and short-circuits
the decision. -/
theorem C2_amended_endpoint_accept (cve : CVE) (service_info : ServiceInfo)
    (evidence : Evidence) (p : String)
    (hp : p ∈ findPaths (cveText cve)) (hlen : p.length < 80)
    (hmem : p ∈ evidence.reachable_paths.getD []) :
    strict_match_cve_to_evidence cve service_info evidence = true := by
  unfold strict_match_cve_to_evidence
  rw [endpointRule_true hp hlen hmem]
  rfl

/-- Witness for C2: a candidate naming the (lowercase) endpoint
`/goform/setupnpcfg` that is reachable on the target; the vendor rule never
gets to reject it. -/
theorem C2_witness :
    "/goform/setupnpcfg" ∈ findPaths (cveText
      { id := "CVE-2025-11327", title := some "Tenda command injection",
        description := some "Command injection in /goform/setupnpcfg endpoint" }) ∧
    strict_match_cve_to_evidence
      { id := "CVE-2025-11327", title := some "Tenda command injection",
        description := some "Command injection in /goform/setupnpcfg endpoint" }
      { service_name := some "http", banner := some "", version := some "",
        product := some "", fingerprint_confidence := some 50 }
      { reachable_paths := some ["/goform/setupnpcfg"] } = true := by
  refine ⟨by decide, ?_⟩
  exact C2_amended_endpoint_accept _ _ _ "/goform/setupnpcfg" (by decide) (by decide) (by decide)

/-! ## C1 and C3: the vendor-specific rule -/

/-- Rule 2 rejects when none of the selected vendor's aliases appears in the
banner, server header, HTML title, body tokens, UPnP model or UPnP
manufacturer. -/
lemma vendorEvidence_false {kws : List String} {si : ServiceInfo} {ev : Evidence}
    (hev : ∀ kw ∈ kws,
      strContains (pyLower (si.banner.getD "")) kw = false ∧
      strContains (pyLower (ev.server_header.getD "")) kw = false ∧
      strContains (pyLower (ev.html_title.getD "")) kw = false ∧
      kw ∉ ev.body_tokens.getD [] ∧
      strContains (pyLower (ev.upnp_model.getD "")) kw = false ∧
      strContains (pyLower (ev.upnp_manufacturer.getD "")) kw = false) :
    vendorEvidence kws si ev = false := by
  unfold vendorEvidence
  have h1 : (kws.any fun kw => strContains (pyLower (si.banner.getD "")) kw) = false := by
    rw [List.any_eq_false]; intro kw hkw h
    rw [(hev kw hkw).1] at h; cases h
  have h2 : (kws.any fun kw => strContains (pyLower (ev.server_header.getD "")) kw) = false := by
    rw [List.any_eq_false]; intro kw hkw h
    rw [(hev kw hkw).2.1] at h; cases h
  have h3 : (kws.any fun kw => strContains (pyLower (ev.html_title.getD "")) kw) = false := by
    rw [List.any_eq_false]; intro kw hkw h
    rw [(hev kw hkw).2.2.1] at h; cases h
  have h4 : (kws.any fun kw => (ev.body_tokens.getD []).contains kw) = false := by
    rw [List.any_eq_false]; intro kw hkw h
    exact (hev kw hkw).2.2.2.1 (contains_iff_mem.mp h)
  have h5 : (kws.any fun kw => strContains (pyLower (ev.upnp_model.getD "")) kw) = false := by
    rw [List.any_eq_false]; intro kw hkw h
    rw [(hev kw hkw).2.2.2.2.1] at h; cases h
  have h6 : (kws.any fun kw => strContains (pyLower (ev.upnp_manufacturer.getD "")) kw) = false := by
    rw [List.any_eq_false]; intro kw hkw h
    rw [(hev kw hkw).2.2.2.2.2] at h; cases h
  rw [h1, h2, h3, h4, h5, h6]
  rfl

/-- C1 as frozen is false on the code: this candidate's text names the table
vendor tenda, no tenda alias appears in the banner, server header, HTML
title, body tokens, UPnP model or UPnP manufacturer (second conjunct), and
yet `match()` returns `true` — the endpoint rule of line 248 runs before the
vendor rule of line 258 and accepts because the path `/goform/test` from the
candidate text is reachable. -/
theorem C1_counterexample :
    strContains
      (cveText
        { id := "CVE-2024-20001",
          title := some "Tenda router vulnerability at /goform/test",
          description := some "" })
      "tenda" = true ∧
    vendorEvidence ["tenda", "ac18", "ac15"] { }
      { reachable_paths := some ["/goform/test"] } = false ∧
    strict_match_cve_to_evidence
      { id := "CVE-2024-20001",
        title := some "Tenda router vulnerability at /goform/test",
        description := some "" }
      { }
      { reachable_paths := some ["/goform/test"] } = true := by
  refine ⟨by decide, by decide, by decide⟩

/-- C1 amended: for every candidate whose text selects a vendor of the
rule-2 table (the first vendor, in table order, with an alias in the
lowercased title+description), if no alias of that vendor appears in the
observation banner, the evidence server header, HTML title, body tokens,
UPnP model or UPnP manufacturer, **and** no path extracted from the
candidate text (length < 80) is among the reachable paths (so that the
higher-priority endpoint rule does not fire), then `match()` returns
`false`, regardless of version tokens or product names in the text. -/
theorem C1_amended_vendor_gate (cve : CVE) (service_info : ServiceInfo) (evidence : Evidence)
    (v : String) (kws : List String)
    (hfind : router_vendors.find?
      (fun vk => vk.2.any (fun kw => strContains (cveText cve) kw)) = some (v, kws))
    (hpaths : ∀ p ∈ findPaths (cveText cve), p.length < 80 →
      p ∉ evidence.reachable_paths.getD [])
    (hev : ∀ kw ∈ kws,
      strContains (pyLower (service_info.banner.getD "")) kw = false ∧
      strContains (pyLower (evidence.server_header.getD "")) kw = false ∧
      strContains (pyLower (evidence.html_title.getD "")) kw = false ∧
      kw ∉ evidence.body_tokens.getD [] ∧
      strContains (pyLower (evidence.upnp_model.getD "")) kw = false ∧
      strContains (pyLower (evidence.upnp_manufacturer.getD "")) kw = false) :
    strict_match_cve_to_evidence cve service_info evidence = false := by
  have hEp := endpointRule_false hpaths
  simp only [strict_match_cve_to_evidence, hEp, Bool.false_eq_true, if_false, hfind]
  exact vendorEvidence_false hev

/-- Witness for C1: the repository's own regression case — a Tenda-specific
CVE against a device running `miniupnpd/1.9` with no Tenda evidence is
rejected. -/
theorem C1_witness :
    strict_match_cve_to_evidence
      { id := "CVE-2025-11327", title := some "Tenda AC18 Router UPnP Vulnerability",
        description := some "Vulnerability in Tenda AC18 router firmware affecting /goform/SetUpnpCfg" }
      { service_name := some "upnp", banner := some "miniupnpd/1.9", version := some "1.9",
        product := some "miniupnpd", fingerprint_confidence := some 85 }
      { server_header := some "miniupnpd/1.9", body_tokens := some [],
        reachable_paths := some [] } = false :=
  C1_amended_vendor_gate _ _ _ "tenda" ["tenda", "ac18", "ac15"]
    (by decide) (by decide) (by decide)

/-- C3 as frozen is false on the code at this input: the candidate text
names the table vendor fritz, and a fritz alias appears in the evidence
field `x_powered_by` (one of the fields the claim lists), yet `match()`
returns `false` — the source selects the first table vendor whose alias
occurs in the text (here tenda, which precedes fritz in the table) and never
consults `x_powered_by` (rule 2 reads only banner, server header, HTML
title, body tokens, UPnP model and UPnP manufacturer). -/
theorem C3_counterexample :
    strContains
      (cveText
        { id := "CVE-2024-30001",
          title := some "tenda and fritz routers vulnerability",
          description := some "" })
      "fritz" = true ∧
    strContains (pyLower ((some "fritz" : Option String).getD "")) "fritz" = true ∧
    strict_match_cve_to_evidence
      { id := "CVE-2024-30001",
        title := some "tenda and fritz routers vulnerability",
        description := some "" }
      { }
      { x_powered_by := some "fritz" } = false := by
  refine ⟨by decide, by decide, by decide⟩

/-- C3 amended: for every candidate whose text selects a vendor of the
rule-2 table (the first vendor, in table order, with an alias in the
lowercased title+description), if an alias of that selected vendor appears
in the observation banner, the evidence server header, HTML title, body
tokens (as an element), UPnP model or UPnP manufacturer, then `match()`
returns `true`. -/
theorem C3_amended_vendor_evidence_accept (cve : CVE) (service_info : ServiceInfo)
    (evidence : Evidence) (v : String) (kws : List String)
    (hfind : router_vendors.find?
      (fun vk => vk.2.any (fun kw => strContains (cveText cve) kw)) = some (v, kws))
    (hev : ∃ kw ∈ kws,
      strContains (pyLower (service_info.banner.getD "")) kw = true ∨
      strContains (pyLower (evidence.server_header.getD "")) kw = true ∨
      strContains (pyLower (evidence.html_title.getD "")) kw = true ∨
      kw ∈ evidence.body_tokens.getD [] ∨
      strContains (pyLower (evidence.upnp_model.getD "")) kw = true ∨
      strContains (pyLower (evidence.upnp_manufacturer.getD "")) kw = true) :
    strict_match_cve_to_evidence cve service_info evidence = true := by
  have hVE : vendorEvidence kws service_info evidence = true := by
    obtain ⟨kw, hkw, hcase⟩ := hev
    unfold vendorEvidence
    simp only [Bool.or_eq_true, List.any_eq_true]
    rcases hcase with h | h | h | h | h | h
    · exact Or.inl (Or.inl (Or.inl (Or.inl (Or.inl ⟨kw, hkw, h⟩))))
    · exact Or.inl (Or.inl (Or.inl (Or.inl (Or.inr ⟨kw, hkw, h⟩))))
    · exact Or.inl (Or.inl (Or.inl (Or.inr ⟨kw, hkw, h⟩)))
    · exact Or.inl (Or.inl (Or.inr ⟨kw, hkw, contains_iff_mem.mpr h⟩))
    · exact Or.inl (Or.inr ⟨kw, hkw, h⟩)
    · exact Or.inr ⟨kw, hkw, h⟩
  cases hEp : endpointRule cve evidence
  · simp only [strict_match_cve_to_evidence, hEp, Bool.false_eq_true, if_false, hfind]
    exact hVE
  · simp only [strict_match_cve_to_evidence, hEp, if_true]

/-- Witness for C3: the repository's FRITZ!Box case — fritz is the selected
vendor and its alias appears in the banner. -/
theorem C3_witness :
    strict_match_cve_to_evidence
      { id := "CVE-2024-54767", title := some "AVM FRITZ!Box Authentication Bypass",
        description := some "Authentication bypass in AVM FRITZ!Box routers" }
      { service_name := some "http", banner := some "FRITZ!Box HTTP Server",
        version := some "7.50", product := some "FRITZ!Box",
        fingerprint_confidence := some 95 }
      { server_header := some "FRITZ!Box", html_title := some "FRITZ!Box 7590",
        body_tokens := some ["fritz", "avm"] } = true :=
  C3_amended_vendor_evidence_accept _ _ _ "fritz" ["fritz", "avm", "fritz!box"]
    (by decide) ⟨"fritz", by decide, Or.inl (by decide)⟩

/-! ## C7: the age/score gate -/

/-- C7 as frozen is false on the code: this candidate's publication year
(2021) is at the threshold-or-later (the threshold the code uses is 2020),
so by the claim it should pass regardless of its score, but the filter drops
it — the code keeps a candidate only when year ≥ 2020 **and** CVSS ≥ 6.0
together hold (or year ≥ 2024 with no score at all). -/
theorem C7_counterexample :
    cve_year "CVE-2021-0001" = 2021 ∧
    filter_by_age_and_score
      [{ id := "CVE-2021-0001", title := some "t", description := some "d",
         cvss := some 3 }] = [] := by
  refine ⟨by decide, by decide⟩

/-- C7 amended: `filter_by_age_and_score` keeps exactly the candidates whose
id-derived year is at least 2020 with a CVSS score of at least 6.0, or whose
year is at least 2024 with a missing/zero score.  Every other candidate is
rejected: in particular a candidate at or after the 2020 threshold whose
score is below 6.0, a pre-2020 candidate however high its score, and every
candidate without a determinable year (year 0). -/
theorem C7_amended_age_score_characterisation (cve_results : List CVE) (cve : CVE) :
    cve ∈ filter_by_age_and_score cve_results ↔
      cve ∈ cve_results ∧
        ((2020 ≤ cve_year cve.id ∧ 6 ≤ cvssOrZero cve) ∨
          (2024 ≤ cve_year cve.id ∧ cvssOrZero cve = 0)) := by
  unfold filter_by_age_and_score keepAgeScore
  rw [List.mem_filter]
  simp only [Bool.or_eq_true, Bool.and_eq_true, decide_eq_true_eq]

/-! ## C5: the fetch gate -/

/-- C5 as frozen is false on the code: for the service name `cisco-sccp`
(detected vendor `Cisco`, not `Generic`) with version `unknown`,
`fetch_cves_for_service` does **not** return an empty list immediately — the
early-return test at line 393 requires the detected product to be `Generic`,
so the function goes on to build the query `Cisco` and issue the external
request. -/
theorem C5_counterexample :
    detect_vendor "cisco-sccp" "unknown" = "Cisco" ∧
    fetch_cves_early_return "cisco-sccp" "unknown" = none := by
  refine ⟨by decide, by decide⟩

/-- C5 amended: when the version is empty or "unknown",
`fetch_cves_for_service` returns an empty list immediately (issuing no
external query) **exactly when** the detected vendor/product is `Generic`;
for any specifically detected vendor the gate does not apply. -/
theorem C5_amended_generic_only_gate (service_name version : String)
    (hv : version = "" ∨ version = "unknown") :
    fetch_cves_early_return service_name version = some [] ↔
      detect_vendor service_name version = "Generic" := by
  constructor
  · intro h
    by_contra hg
    simp only [fetch_cves_early_return, decide_eq_false hg, Bool.false_and,
      Bool.false_eq_true, if_false] at h
    exact Option.noConfusion h
  · intro hg
    rcases hv with rfl | rfl
    · simp only [fetch_cves_early_return, decide_eq_true hg, Bool.true_and]
      split
      · exact ite_self _
      · next hcond => exact absurd (by decide) hcond
    · simp only [fetch_cves_early_return, decide_eq_true hg, Bool.true_and]
      split
      · exact ite_self _
      · next hcond => exact absurd (by decide) hcond

/-- Witness for C5: the generic service `upnp` without a version is gated to
an immediate empty result. -/
theorem C5_witness :
    (("unknown" : String) = "" ∨ ("unknown" : String) = "unknown") ∧
    (fetch_cves_early_return "upnp" "unknown" = some [] ↔
      detect_vendor "upnp" "unknown" = "Generic") :=
  ⟨Or.inr rfl, C5_amended_generic_only_gate "upnp" "unknown" (Or.inr rfl)⟩

/-! ## C4: the orchestrator's cves field -/

/-- C4 is right about the intent and wrong about the code: for every open
port that passes the version gate, the report entry's `cves` field is the
error placeholder, never the fetched candidate list — the call at
`scan_service.py` line 332 passes the keyword argument `require_version`,
which `fetch_cves_for_service` does not accept, so the call raises
`TypeError` and the `except` handler stores the placeholder. -/
theorem C4_cves_field_error_placeholder (search_service_name v : String) (fetched : List CVE)
    (h1 : ¬ pyLower search_service_name = "unknown")
    (h2 : ¬ v = "") (h3 : ¬ pyLower v = "unknown") :
    gated_cve_enrichment "open" search_service_name (some v) fetched =
      CvesFieldValue.errorEntry
        "Could not fetch CVEs: fetch_cves_for_service got an unexpected keyword argument require_version" := by
  simp only [gated_cve_enrichment, decide_eq_false h1, decide_eq_false h2,
    decide_eq_false h3]
  rfl

/-- Witness for C4: nmap detected `Apache httpd 2.4.58` on an open port; the
entry still carries the error placeholder instead of the accepted CVEs. -/
theorem C4_witness :
    gated_cve_enrichment "open" "Apache httpd" (some "2.4.58") [] =
      CvesFieldValue.errorEntry
        "Could not fetch CVEs: fetch_cves_for_service got an unexpected keyword argument require_version" :=
  C4_cves_field_error_placeholder "Apache httpd" "2.4.58" []
    (by decide) (by decide) (by decide)

/-! ## C8: fingerprint confidence scaling -/

/-- C8 is right about the intent and wrong about the code:
`extract_service_info` stores the scanner's own 0-10 confidence value
unscaled (first conjunct, for every scanner record), so a scanner record
with the maximal confidence 10 yields `fingerprint_confidence = 10`, not the
claimed 10 × 10 = 100 — and 10 never reaches the rule-5 threshold of 80. -/
theorem C8_confidence_not_scaled :
    (∀ ns : NmapService,
      (extract_service_info ns).fingerprint_confidence = some (ns.conf.getD 0)) ∧
    (extract_service_info { conf := some 10 }).fingerprint_confidence = some 10 ∧
    ¬ (extract_service_info { conf := some 10 }).fingerprint_confidence = some 100 ∧
    ¬ (80 : Int) ≤ 10 := by
  exact ⟨fun ns => rfl, rfl, by decide, by decide⟩

/-! ## C6: normalize_target on an out-of-range dotted quad -/

/-- C6 is right about the intent and wrong about the code:
`normalize_target "999.999.999.999"` does not fail validation — the literal
is not a valid IP address, so the code falls through to `_normalize_hostname`,
whose label grammar accepts the all-digit labels, and a hostname-typed
result is returned.  The repository's own test
(`test_target_normalize.py::test_invalid_ip_out_of_range`) expects a
`ValueError` here. -/
theorem C6_invalid_ip_becomes_hostname :
    normalize_target "999.999.999.999" =
      Except.ok { original := "999.999.999.999", normalized := "999.999.999.999",
                  hosts_count := none, target_type := "hostname", warnings := [] } := by
  rfl

/-! ## C10: inputs containing a dash -/

/-- Every success of `_normalize_range` is range-typed. -/
lemma normalize_range_shape (u : String) :
    (∃ e, _normalize_range u = Except.error e) ∨
      (∃ t, _normalize_range u = Except.ok t ∧ t.target_type = "range") := by
  simp only [_normalize_range]
  repeat' split
  all_goals
    first
      | exact Or.inl ⟨_, rfl⟩
      | exact Or.inr ⟨_, rfl, rfl⟩

/-- C10: for every input containing `-` and no `/`, `normalize_target`
returns a range-typed result or fails with a `ValueError`; it never returns
a hostname result (the `-` test at line 39 precedes hostname validation, so
hyphenated hostnames are routed to the range parser and rejected). -/
theorem C10_dash_never_hostname (s : String)
    (h1 : '-' ∈ s.toList) (h2 : '/' ∉ s.toList) :
    (∃ e, normalize_target s = Except.error e) ∨
      (∃ t, normalize_target s = Except.ok t ∧ t.target_type = "range") := by
  have hmem : '-' ∈ (pyStrip s).toList := by
    rw [toList_pyStrip]
    exact mem_pyStripL (by decide) h1
  have hslash : '/' ∉ (pyStrip s).toList := by
    rw [toList_pyStrip]
    intro hc
    exact h2 (mem_of_mem_pyStripL hc)
  have hne : (pyStrip s).toList.isEmpty = false :=
    List.isEmpty_eq_false.mpr (List.ne_nil_of_mem hmem)
  have hcont1 : (pyStrip s).toList.contains '/' = false := by
    cases hc : (pyStrip s).toList.contains '/'
    · rfl
    · exact absurd (contains_iff_mem.mp hc) hslash
  have hcont2 : (pyStrip s).toList.contains '-' = true := contains_iff_mem.mpr hmem
  have hnt : normalize_target s = _normalize_range (pyStrip s) := by
    have hmem' : '-' ∈ (pyStrip s).data := hmem
    have hslash' : '/' ∉ (pyStrip s).data := hslash
    have hne' : ¬ (pyStrip s).data = [] := List.ne_nil_of_mem hmem'
    simp [normalize_target, hne', hslash', hmem']
  rw [hnt]
  exact normalize_range_shape _

/-- Witness for C10: the repository's own short-form range input. -/
theorem C10_witness :
    ('-' ∈ ("192.168.1.10-20" : String).toList) ∧
    ('/' ∉ ("192.168.1.10-20" : String).toList) ∧
    ((∃ e, normalize_target "192.168.1.10-20" = Except.error e) ∨
      (∃ t, normalize_target "192.168.1.10-20" = Except.ok t ∧ t.target_type = "range")) :=
  ⟨by decide, by decide, C10_dash_never_hostname "192.168.1.10-20" (by decide) (by decide)⟩
